import Mathlib

/-!
Shallow embedding of the Axium authentication/authorization gate.

The definitions below are translated from the Rust source:
- `src/utils/auth.rs` (cached credential verifier, JWT encode/decode,
  bearer-token extraction),
- `src/middlewares/auth.rs` (the wired `authorize` middleware, its own
  `verify_hash` and `decode_jwt`, and `check_rate_limit`),
- `src/handlers/login.rs` (dual-credential login),
- `src/database/apikeys.rs`, `src/database/insert_usage.rs`,
  `src/database/get_users.rs` (store queries, modelled as pure functions
  over an explicit database state).

The Argon2 primitive itself (hash parsing and password comparison) and the
TOTP code check are external cryptographic primitives; they are modelled as
oracle parameters so that every theorem quantifies over their behaviour.
Machine integers (i32, i64) are modelled as Int; timestamps as Nat seconds.
-/

deriving instance DecidableEq for Except

namespace Axium

/-- Oracle for the Argon2 primitive used by both verifiers:
`parses h` models `PasswordHash::new(h).is_ok()` and
`verifyOk p h` models `Argon2::default().verify_password(p, h).is_ok()`. -/
structure Argon where
  parses : String → Bool
  verifyOk : String → String → Bool

/-- Error outcomes of `argon2::password_hash`: a hash that fails to parse,
or `Error::Password` from a failed comparison. -/
inductive HashErr where
  | malformedHash : HashErr
  | passwordMismatch : HashErr
deriving DecidableEq, Repr

/-- Function `verify_hash` from `src/middlewares/auth.rs` (lines 55-59): parse the
stored hash (propagating a parse error), then return
`Ok(verify_password(..).is_ok())` — a mismatch is the normal `false`. -/
def verify_hash_mw (A : Argon) (password hash : String) : Except HashErr Bool :=
  if A.parses hash then Except.ok (A.verifyOk password hash)
  else Except.error HashErr.malformedHash

/-- One entry of the `moka` TTL cache `PASSWORD_CACHE` in
`src/utils/auth.rs`: key, stored value, and insertion time. -/
structure CacheEntry where
  key : String
  value : Bool
  insertedAt : Nat
deriving DecidableEq, Repr

/-- The `PASSWORD_CACHE` time-to-live: 300 seconds (5 minutes). -/
def cacheTTL : Nat := 300

/-- Model of `PASSWORD_CACHE.get(password)` at time `now`: the stored value of a
live (non-expired) entry for the key, if any. -/
def cacheGet (cache : List CacheEntry) (k : String) (now : Nat) : Option Bool :=
  (cache.find? (fun e => e.key == k && decide (now < e.insertedAt + cacheTTL))).map
    (fun e => e.value)

/-- Function `verify_hash` from `src/utils/auth.rs` (lines 32-57).  Checks the
TTL cache first and returns any cached value; otherwise parses the stored
hash (error on malformed), then runs the Argon2 comparison, which yields
`Ok(true)` on a match and propagates `Err(Error::Password)` on a mismatch
(the source maps `verify_password` with `.map(|_| true)`, so a mismatch is
an error, not `Ok(false)`).  A successful verification — and only a
successful one — inserts `(password, true)` into the cache.  The cache is
passed and returned explicitly. -/
def verify_hash (A : Argon) (now : Nat) (cache : List CacheEntry)
    (password hash : String) : Except HashErr Bool × List CacheEntry :=
  match cacheGet cache password now with
  | some result => (Except.ok result, cache)
  | none =>
    if A.parses hash then
      if A.verifyOk password hash then
        (Except.ok true, { key := password, value := true, insertedAt := now } :: cache)
      else (Except.error HashErr.passwordMismatch, cache)
    else (Except.error HashErr.malformedHash, cache)

/-- JWT claims (`Claims` in `src/models/auth.rs`). -/
structure Claims where
  sub : String
  iat : Nat
  exp : Nat
  iss : String
  aud : String
deriving DecidableEq, Repr

/-- A token string as seen by the decoder: either not a well-formed signed
token at all, or a payload of claims signed with some HMAC key.  Signature
verification is modelled as equality of the signing key (HMAC over the
serialized claims with a shared secret). -/
inductive Jwt where
  | garbage : String → Jwt
  | signed : Claims → String → Jwt
deriving DecidableEq, Repr

/-- Token lifetime fixed at issuance: `Duration::hours(24)`. -/
def tokenLifetime : Nat := 24 * 3600

/-- Function `encode_jwt` from `src/utils/auth.rs` (lines 83-113):
`iat = now`, `exp = now + 24h`, issuer/audience from configuration,
signed with the configured secret. -/
def encode_jwt (secret issuer audience : String) (now : Nat) (email : String) : Jwt :=
  Jwt.signed
    { sub := email, iat := now, exp := now + tokenLifetime, iss := issuer, aud := audience }
    secret

/-- The `jsonwebtoken::errors::ErrorKind` cases distinguished by the source. -/
inductive JwtErr where
  | invalidToken : JwtErr
  | invalidSignature : JwtErr
  | expiredSignature : JwtErr
  | invalidIssuer : JwtErr
  | invalidAudience : JwtErr
deriving DecidableEq, Repr

/-- Model of `jsonwebtoken::decode` with a validation requiring the given issuer and
audience and tolerating `leeway` seconds of clock skew on `exp`
(`validate_exp` is on by default; the expiry test is
`claims.exp < now - leeway`). -/
def validateJwt (secret issuer audience : String) (leeway now : Nat) :
    Jwt → Except JwtErr Claims
  | Jwt.garbage _ => Except.error JwtErr.invalidToken
  | Jwt.signed c key =>
    if key ≠ secret then Except.error JwtErr.invalidSignature
    else if c.exp + leeway < now then Except.error JwtErr.expiredSignature
    else if c.iss ≠ issuer then Except.error JwtErr.invalidIssuer
    else if c.aud ≠ audience then Except.error JwtErr.invalidAudience
    else Except.ok c

/-- Structured authentication error (`AuthError` in `src/models/auth.rs`):
a message body and an HTTP status code. -/
structure AuthError where
  message : String
  status_code : Nat
deriving DecidableEq, Repr

/-- The error messages `decode_jwt` in `src/utils/auth.rs` assigns to each
`ErrorKind` (lines 141-148). -/
def jwtErrMessage : JwtErr → String
  | JwtErr.invalidToken => "Invalid token format."
  | JwtErr.invalidSignature => "Invalid token signature."
  | JwtErr.expiredSignature => "Token has expired."
  | JwtErr.invalidIssuer => "Invalid token issuer."
  | JwtErr.invalidAudience => "Invalid token audience."

/-- Function `decode_jwt` from `src/utils/auth.rs` (lines 116-158): validates with
the configured issuer/audience and a 300-second leeway; every decode
failure is mapped to an `AuthError` with status 401. -/
def decode_jwt (secret issuer audience : String) (now : Nat) (jwt : Jwt) :
    Except AuthError Claims :=
  match validateJwt secret issuer audience 300 now jwt with
  | Except.ok c => Except.ok c
  | Except.error e => Except.error { message := jwtErrMessage e, status_code := 401 }

/-- Function `decode_jwt` from `src/middlewares/auth.rs` (lines 147-179): hardcoded
issuer `"your_issuer"` and audience `"your_audience"`, default validation
leeway (60 seconds), and every failure mapped to status 401. -/
def decode_jwt_mw (secret : String) (now : Nat) (jwt : Jwt) : Except Nat Claims :=
  match validateJwt secret "your_issuer" "your_audience" 60 now jwt with
  | Except.ok c => Except.ok c
  | Except.error _ => Except.error 401

/-- Function `extract_bearer_token` from `src/utils/auth.rs` (lines 161-170):
`parts` is the result of `header.splitn(2, ' ')`; the header must split
into exactly two parts with the first equal to `"Bearer"`, otherwise a
401 error is returned. -/
def extract_bearer_token (parts : List String) : Except AuthError String :=
  match parts with
  | [scheme, token] =>
    if scheme == "Bearer" then Except.ok token
    else Except.error { message := "Authorization header must be in Bearer format.",
                        status_code := 401 }
  | _ => Except.error { message := "Authorization header must be in Bearer format.",
                        status_code := 401 }

/-- The fields of the `users` row the gate reads (`src/models/user.rs`);
UUIDs are modelled as Nat. -/
structure UserRow where
  id : Nat
  email : String
  password_hash : String
  totp_secret : Option String
  role_level : Int
  tier_level : Int
deriving DecidableEq, Repr

/-- One row of the `tiers` table: `level` and `requests_per_day` (i32). -/
structure TierRow where
  level : Int
  requests_per_day : Int
deriving DecidableEq, Repr

/-- One row of the `usage` table: user, endpoint, and `creation_date`
(seconds). -/
structure UsageRow where
  user_id : Nat
  endpoint : String
  creation_date : Nat
deriving DecidableEq, Repr

/-- One row of the `apikeys` table, with the fields the login path reads;
`expiration_date` is a date (days), `none` when NULL. -/
structure ApiKeyRow where
  user_id : Nat
  key_hash : String
  disabled : Bool
  expiration_date : Option Int
deriving DecidableEq, Repr

/-- The durable store as read/written by the gate and login paths. -/
structure Db where
  users : List UserRow
  tiers : List TierRow
  usage : List UsageRow
  apikeys : List ApiKeyRow
deriving DecidableEq, Repr

/-- Function `get_user_by_email` (`src/database/get_users.rs`): the first `users`
row with the given email, if any (`fetch_optional`; a missing row is an
error at the caller). -/
def get_user_by_email (db : Db) (email : String) : Option UserRow :=
  db.users.find? (fun u => u.email == email)

/-- Function `fetch_active_apikeys_by_user_id_from_db` (`src/database/apikeys.rs`,
lines 108-126): the user's keys with `disabled = FALSE AND
(expiration_date IS NULL OR expiration_date > CURRENT_DATE)`. -/
def fetch_active_apikeys_by_user_id_from_db (db : Db) (currentDate : Int)
    (user_id : Nat) : List ApiKeyRow :=
  db.apikeys.filter (fun k =>
    k.user_id == user_id && !k.disabled &&
      (match k.expiration_date with
       | none => true
       | some d => decide (currentDate < d)))

/-- The `SELECT COUNT(*) FROM usage WHERE user_id = $1 AND creation_date >
NOW() - INTERVAL '24 hours'` query in `check_rate_limit`
(`src/middlewares/auth.rs`, lines 378-389), as an i64 count. -/
def countUsageLast24h (db : Db) (user_id : Nat) (now : Nat) : Int :=
  ((db.usage.filter (fun r =>
      r.user_id == user_id && decide (now < r.creation_date + 24 * 3600))).length : Int)

/-- Function `check_rate_limit` (`src/middlewares/auth.rs`, lines 363-399): fetch
the tier's `requests_per_day` (a missing tier row is a 500 error), count the
user's durable requests in the trailing 24-hour window, and reject with
429 `"Rate limit exceeded"` when `request_count >= tier_limit`. -/
def check_rate_limit (db : Db) (now : Nat) (user_id : Nat) (tier_level : Int) :
    Except AuthError Unit :=
  match db.tiers.find? (fun t => t.level == tier_level) with
  | none =>
    Except.error { message := "Failed to fetch tier information", status_code := 500 }
  | some tier =>
    if countUsageLast24h db user_id now ≥ tier.requests_per_day then
      Except.error { message := "Rate limit exceeded", status_code := 429 }
    else Except.ok ()

/-- Function `insert_usage` (`src/database/insert_usage.rs`, lines 4-16): one
durable `INSERT INTO usage` row, executed immediately. -/
def insert_usage (db : Db) (user_id : Nat) (endpoint : String) (now : Nat) : Db :=
  { db with usage := db.usage ++ [{ user_id := user_id, endpoint := endpoint,
                                    creation_date := now }] }

/-- The `Authorization` header as `authorize` sees it: absent,
present but not convertible to a `&str` (`to_str` fails), or a value that
`split_whitespace` breaks into a list of words (each word modelled as a
`Jwt`, with `Jwt.garbage` covering non-token words such as the scheme). -/
inductive AuthHeader where
  | missing : AuthHeader
  | notAscii : AuthHeader
  | val : List Jwt → AuthHeader
deriving DecidableEq, Repr

/-- Outcome of the `authorize` middleware for one request: forwarded to
the downstream handler with the resolved user, rejected with a status code
and error body, or a panic (`token.unwrap()` on a header with fewer than
two whitespace-separated words). -/
inductive GateOutcome where
  | forwarded : UserRow → GateOutcome
  | response : Nat → String → GateOutcome
  | panicked : GateOutcome
deriving DecidableEq, Repr

/-- Function `authorize` (`src/middlewares/auth.rs`, lines 184-253): extract the
second whitespace-separated word of the `Authorization` header (missing
header or non-string header value → 403; fewer than two words → panic on
`unwrap`), decode the JWT (failure → 401 `"Unable to decode token."`),
resolve the user by the `sub` claim (failure → 401 `"Unauthorized user."`),
check the role allow-list (failure → 403), check the rate limit, insert
one durable usage row, and forward.  Returns the outcome and the updated
store. -/
def authorize (secret : String) (now : Nat) (db : Db) (allowed_roles : List Int)
    (header : AuthHeader) (path : String) : GateOutcome × Db :=
  match header with
  | AuthHeader.missing =>
    (GateOutcome.response 403 "Authorization header missing.", db)
  | AuthHeader.notAscii =>
    (GateOutcome.response 403 "Invalid header format", db)
  | AuthHeader.val words =>
    match words[1]? with
    | none => (GateOutcome.panicked, db)
    | some token =>
      match decode_jwt_mw secret now token with
      | Except.error _ => (GateOutcome.response 401 "Unable to decode token.", db)
      | Except.ok claims =>
        match get_user_by_email db claims.sub with
        | none => (GateOutcome.response 401 "Unauthorized user.", db)
        | some current_user =>
          if ¬ allowed_roles.contains current_user.role_level then
            (GateOutcome.response 403 "Forbidden: insufficient role.", db)
          else
            match check_rate_limit db now current_user.id current_user.tier_level with
            | Except.error e => (GateOutcome.response e.status_code e.message, db)
            | Except.ok _ =>
              (GateOutcome.forwarded current_user, insert_usage db current_user.id path now)

/-- A sequence of gate requests (header and path pairs) processed in
order, threading the durable store. -/
def runGate (secret : String) (now : Nat) (allowed_roles : List Int) :
    Db → List (AuthHeader × String) → List GateOutcome × Db
  | db, [] => ([], db)
  | db, r :: rs =>
    let step := authorize secret now db allowed_roles r.1 r.2
    let rest := runGate secret now allowed_roles step.2 rs
    (step.1 :: rest.1, rest.2)

/-- Struct `LoginData` (`src/models/auth.rs`): email, password, optional TOTP. -/
structure LoginData where
  email : String
  password : String
  totp : Option String
deriving DecidableEq, Repr

/-- Outcome of the login handler: a token response, or a status code and
error body. -/
inductive LoginResult where
  | success : Jwt → LoginResult
  | failure : Nat → String → LoginResult
deriving DecidableEq, Repr

/-- The API-key fan-out of `login` (`src/handlers/login.rs`, lines 72-87):
verify the supplied password against each active key hash, mapping any
verifier error to `false` (`unwrap_or(false)`), and take the disjunction.
The concurrent `join_all` is linearized in key order; all verifications
share the one `PASSWORD_CACHE`, which is threaded through. -/
def apiKeyFanOut (A : Argon) (now : Nat) (password : String) :
    List ApiKeyRow → (Bool × List CacheEntry) → Bool × List CacheEntry
  | [], acc => acc
  | k :: ks, acc =>
    let v := verify_hash A now acc.2 password k.key_hash
    apiKeyFanOut A now password ks
      (acc.1 || (match v.1 with | Except.ok b => b | Except.error _ => false), v.2)

/-- The TOTP block of `login` (`src/handlers/login.rs`, lines 114-150),
reached once the credentials were accepted: when the user has a TOTP
secret configured, a missing code is a 400 and a wrong code
(`totpOk` is the oracle for `totp.check_current`) a 401; otherwise a JWT
is issued for the user's email. -/
def totp_stage (totpOk : String → String → Bool)
    (secret issuer audience : String) (now : Nat) (user : UserRow)
    (data : LoginData) (c : List CacheEntry) : LoginResult × List CacheEntry :=
  match user.totp_secret with
  | some ts =>
    match data.totp with
    | some code =>
      if totpOk ts code then
        (LoginResult.success (encode_jwt secret issuer audience now user.email), c)
      else (LoginResult.failure 401 "Invalid 2FA code.", c)
    | none => (LoginResult.failure 400 "2FA code required for this account.", c)
  | none =>
    (LoginResult.success (encode_jwt secret issuer audience now user.email), c)

/-- Function `login` (`src/handlers/login.rs`, lines 41-233), up to the issued
token: resolve the user by email (missing → 401 `"Incorrect
credentials."`), fan out the password over the user's active API keys,
verify the password against the stored password hash (a verifier error →
401 `"Incorrect credentials."`), accept when either path matched, then
run the TOTP stage.  The verifier cache is threaded through and
returned. -/
def login (A : Argon) (totpOk : String → String → Bool)
    (secret issuer audience : String) (now : Nat) (currentDate : Int)
    (cache : List CacheEntry) (db : Db) (data : LoginData) :
    LoginResult × List CacheEntry :=
  match get_user_by_email db data.email with
  | none => (LoginResult.failure 401 "Incorrect credentials.", cache)
  | some user =>
    let keys := fetch_active_apikeys_by_user_id_from_db db currentDate user.id
    let fan := apiKeyFanOut A now data.password keys (false, cache)
    let any_api_key_valid := fan.1
    match verify_hash A now fan.2 data.password user.password_hash with
    | (Except.error _, c) => (LoginResult.failure 401 "Incorrect credentials.", c)
    | (Except.ok password_valid, c) =>
      if ¬ (any_api_key_valid || password_valid) then
        (LoginResult.failure 401 "Incorrect credentials.", c)
      else totp_stage totpOk secret issuer audience now user data c

/-! ## Concrete fixtures used by counterexamples and witnesses -/

/-- An Argon oracle in which every stored hash is well-formed and no
secret matches any hash. -/
def argonNoMatch : Argon := { parses := fun _ => true, verifyOk := fun _ _ => false }

/-- An Argon oracle in which every stored hash is well-formed and the
secret `p` matches exactly the hash `"H:" ++ p`. -/
def argonDemo : Argon :=
  { parses := fun _ => true, verifyOk := fun p h => h == "H:" ++ p }

/-- A user with role 1 and tier 1. -/
def uGate : UserRow :=
  { id := 1, email := "user@example.com", password_hash := "H:pw",
    totp_secret := none, role_level := 1, tier_level := 1 }

/-- A store with one user and a tier quota of 3 requests per day. -/
def dbGate : Db :=
  { users := [uGate], tiers := [{ level := 1, requests_per_day := 3 }],
    usage := [], apikeys := [] }

/-- A token issued at time 1000 for the user above, with the middleware's
hardcoded issuer and audience, signed with the secret `"s"`. -/
def tokGate : Jwt := encode_jwt "s" "your_issuer" "your_audience" 1000 "user@example.com"

/-- An Authorization header carrying a scheme word and the valid token. -/
def hdrGate : AuthHeader := AuthHeader.val [Jwt.garbage "Bearer", tokGate]

/-- Predicate on stored hashes: `h` parses and the secret `p` passes the
Argon2 comparison against it. -/
def hashMatches (A : Argon) (p h : String) : Prop :=
  A.parses h = true ∧ A.verifyOk p h = true

/-! ## C2 — token round-trip -/

/-- C2: for every subject, decoding a token freshly issued for that
subject with the same secret, issuer and audience succeeds and yields
claims whose `sub` is that subject, with `iat < exp` and
`exp = iat + 24h`. -/
theorem token_round_trip (secret issuer audience sub : String) (now : Nat) :
    ∃ c : Claims,
      decode_jwt secret issuer audience now
          (encode_jwt secret issuer audience now sub) = Except.ok c
        ∧ c.sub = sub ∧ c.iat < c.exp ∧ c.exp = c.iat + 24 * 3600 := by
  refine ⟨{ sub := sub, iat := now, exp := now + tokenLifetime,
            iss := issuer, aud := audience }, ?_, rfl, ?_, rfl⟩
  · simp only [decode_jwt, encode_jwt, validateJwt, tokenLifetime]
    norm_num
    rw [if_neg (by omega)]
  · simp [tokenLifetime]

/-! ## C6 — credential-verifier contract -/

/-- C6 counterexample: for a well-formed stored hash that the secret does
not match, the cached verifier of `src/utils/auth.rs` returns an error
(`Err(Error::Password)`), not the normal result `false`. -/
theorem utils_verifier_errors_on_mismatch :
    (verify_hash argonNoMatch 0 [] "secret" "stored-hash").1
        = Except.error HashErr.passwordMismatch
      ∧ (verify_hash argonNoMatch 0 [] "secret" "stored-hash").1 ≠ Except.ok false := by
  decide

/-- C6 (amended): the middleware verifier (`src/middlewares/auth.rs`)
meets the contract — a mismatch is the normal `false` and only a
malformed stored hash is an error — while the cached verifier
(`src/utils/auth.rs`) returns an error on a mismatch and returns `Ok`
only with the value `true` (callers map the error to `false`). -/
theorem verify_hash_contract (A : Argon) (now : Nat) (cache : List CacheEntry)
    (p h : String) (hcache : ∀ e ∈ cache, e.value = true) :
    (A.parses h = true → verify_hash_mw A p h = Except.ok (A.verifyOk p h))
    ∧ (A.parses h = false → verify_hash_mw A p h = Except.error HashErr.malformedHash)
    ∧ (cacheGet cache p now = none → A.parses h = true → A.verifyOk p h = false →
        (verify_hash A now cache p h).1 = Except.error HashErr.passwordMismatch)
    ∧ (∀ b, (verify_hash A now cache p h).1 = Except.ok b → b = true) := by
  refine ⟨fun hp => by simp [verify_hash_mw, hp],
          fun hp => by simp [verify_hash_mw, hp],
          fun hc hp hv => by simp [verify_hash, hc, hp, hv],
          fun b hb => ?_⟩
  rcases hc : cacheGet cache p now with _ | r
  · by_cases hp : A.parses h = true
    · by_cases hv : A.verifyOk p h = true
      · simpa [verify_hash, hc, hp, hv, eq_comm] using hb
      · simp [verify_hash, hc, hp, hv] at hb
    · simp [verify_hash, hc, Bool.of_not_eq_true hp] at hb
  · have hr : r = b := by simpa [verify_hash, hc] using hb
    rcases hfind : cache.find? (fun e => e.key == p && decide (now < e.insertedAt + cacheTTL))
      with _ | e
    · simp [cacheGet, hfind] at hc
    · have he : e ∈ cache := List.mem_of_find?_eq_some hfind
      have : e.value = r := by simpa [cacheGet, hfind] using hc
      rw [← hr, ← this]
      exact hcache e he

/-- C6 witness: the amended contract evaluated at a concrete mismatch
for the middleware verifier. -/
theorem verify_hash_contract_witness :
    verify_hash_mw argonNoMatch "secret" "stored-hash" = Except.ok false :=
  (verify_hash_contract argonNoMatch 0 [] "secret" "stored-hash"
    (fun _ he => absurd he (List.not_mem_nil _))).1 rfl

/-! ## C9 — memoization soundness -/

/-- C9: the verifier cache gains an entry only from a successful
verification: after any call, either the cache is unchanged, or exactly
the entry `(password, true)` was added and that call verified the
password against the stored hash successfully. -/
theorem cache_insert_only_on_success (A : Argon) (now : Nat)
    (cache : List CacheEntry) (p h : String) :
    (verify_hash A now cache p h).2 = cache
    ∨ ((verify_hash A now cache p h).2
          = { key := p, value := true, insertedAt := now } :: cache
        ∧ (verify_hash A now cache p h).1 = Except.ok true
        ∧ A.parses h = true ∧ A.verifyOk p h = true) := by
  rcases hc : cacheGet cache p now with _ | r
  · by_cases hp : A.parses h = true
    · by_cases hv : A.verifyOk p h = true
      · right; simp [verify_hash, hc, hp, hv]
      · left; simp [verify_hash, hc, hp, hv]
    · left; simp [verify_hash, hc, Bool.of_not_eq_true hp]
  · left; simp [verify_hash, hc]

/-! ## C10 — the cache is keyed by the plaintext secret alone -/

/-- C10: the memoization cache is keyed by the plaintext secret alone:
once `verify_hash` has succeeded for `(p, h1)`, a later call for
`(p, h2)` within the TTL also returns `true`, even though `p` does not
match `h2`. -/
theorem cache_keyed_by_plaintext (A : Argon) (t1 t2 : Nat)
    (cache : List CacheEntry) (p h1 h2 : String)
    (hfresh : cacheGet cache p t1 = none)
    (hp1 : A.parses h1 = true) (hm1 : A.verifyOk p h1 = true)
    (hm2 : A.verifyOk p h2 = false) (httl : t2 < t1 + cacheTTL) :
    (verify_hash A t1 cache p h1).1 = Except.ok true
    ∧ (verify_hash A t2 (verify_hash A t1 cache p h1).2 p h2).1 = Except.ok true := by
  have h1eq : verify_hash A t1 cache p h1
      = (Except.ok true, { key := p, value := true, insertedAt := t1 } :: cache) := by
    simp [verify_hash, hfresh, hp1, hm1]
  refine ⟨by rw [h1eq], ?_⟩
  rw [h1eq]
  have hget : cacheGet ({ key := p, value := true, insertedAt := t1 } :: cache) p t2
      = some true := by
    simp [cacheGet, List.find?, httl]
  simp [verify_hash, hget]

/-- C10 witness: concrete secret `"p"` matching only `"H:p"`; after the
first success, verification against the unrelated hash `"H:q"` also
returns `true` 100 seconds later. -/
theorem cache_keyed_by_plaintext_witness :
    (verify_hash argonDemo 0 [] "p" "H:p").1 = Except.ok true
    ∧ (verify_hash argonDemo 100 (verify_hash argonDemo 0 [] "p" "H:p").2 "p" "H:q").1
        = Except.ok true :=
  cache_keyed_by_plaintext argonDemo 0 100 [] "p" "H:p" "H:q"
    (by decide) (by decide) (by decide) (by decide) (by decide)

/-! ## The gate's effect on the durable store -/

/-- True exactly on forwarded outcomes. -/
def isForwarded : GateOutcome → Bool
  | GateOutcome.forwarded _ => true
  | _ => false

/-- Helper: the store returned by `authorize` is the input store, except
that a forwarded request has inserted its one usage row. -/
theorem authorize_db_eq (secret : String) (now : Nat) (db : Db) (roles : List Int)
    (header : AuthHeader) (path : String) :
    (authorize secret now db roles header path).2
      = match (authorize secret now db roles header path).1 with
        | GateOutcome.forwarded u => insert_usage db u.id path now
        | _ => db := by
  cases header with
  | missing => rfl
  | notAscii => rfl
  | val words =>
    unfold authorize
    cases hget : words[1]? with
    | none => simp [hget]
    | some tok =>
      simp only [hget]
      cases hdec : decode_jwt_mw secret now tok with
      | error e => simp
      | ok claims =>
        simp only [hdec]
        cases huser : get_user_by_email db claims.sub with
        | none => simp
        | some u =>
          simp only [huser]
          split_ifs with hrole <;>
            cases hrl : check_rate_limit db now u.id u.tier_level <;> simp

/-- Helper: the length form of `authorize_db_eq`. -/
theorem authorize_usage_length (secret : String) (now : Nat) (db : Db)
    (roles : List Int) (header : AuthHeader) (path : String) :
    ((authorize secret now db roles header path).2).usage.length
      = db.usage.length
        + (if isForwarded (authorize secret now db roles header path).1 then 1 else 0) := by
  rw [authorize_db_eq]
  generalize (authorize secret now db roles header path).1 = r
  cases r <;> simp [insert_usage, isForwarded]

/-! ## C5 — fail-fast without side effects -/

/-- C5: for every request the gate rejects (or panics on), no usage
record is inserted: the usage table is unchanged unless the request was
forwarded, in which case exactly the one record for that request was
appended after all checks passed. -/
theorem no_side_effects_on_rejection (secret : String) (now : Nat) (db : Db)
    (roles : List Int) (header : AuthHeader) (path : String) :
    ((authorize secret now db roles header path).2).usage
      = match (authorize secret now db roles header path).1 with
        | GateOutcome.forwarded u =>
            db.usage ++ [{ user_id := u.id, endpoint := path, creation_date := now }]
        | _ => db.usage := by
  rw [authorize_db_eq]
  generalize (authorize secret now db roles header path).1 = r
  cases r <;> simp [insert_usage]

/-! ## C1 — rate-limit boundary -/

/-- C1: when the user's tier limit is `N`, the rate limiter allows a
request exactly when the durable count of the user's requests in the
trailing 24-hour window is strictly below `N`, and rejects with
429 `"Rate limit exceeded"` exactly when the count is at least `N`;
with `N = 3` and an empty usage table, requests 1-3 are forwarded and
request 4 is rejected with 429. -/
theorem rate_limit_boundary (db : Db) (now : Nat) (uid : Nat) (tl : Int)
    (t : TierRow) (hfind : db.tiers.find? (fun r => r.level == tl) = some t) :
    (check_rate_limit db now uid tl = Except.ok ()
        ↔ countUsageLast24h db uid now < t.requests_per_day)
    ∧ (check_rate_limit db now uid tl
          = Except.error { message := "Rate limit exceeded", status_code := 429 }
        ↔ t.requests_per_day ≤ countUsageLast24h db uid now)
    ∧ (runGate "s" 1000 [1] dbGate
          [(hdrGate, "/a"), (hdrGate, "/a"), (hdrGate, "/a"), (hdrGate, "/a")]).1
        = [GateOutcome.forwarded uGate, GateOutcome.forwarded uGate,
           GateOutcome.forwarded uGate, GateOutcome.response 429 "Rate limit exceeded"] := by
  refine ⟨?_, ?_, by decide⟩ <;>
  · unfold check_rate_limit
    simp only [hfind]
    split_ifs with hge <;> simp_all <;> omega

/-- C1 witness: with tier limit 3 and an empty usage table the check
allows the request. -/
theorem rate_limit_boundary_witness : check_rate_limit dbGate 1000 1 1 = Except.ok () :=
  (rate_limit_boundary dbGate 1000 1 1 { level := 1, requests_per_day := 3 }
    (by decide)).1.mpr (by decide)

/-! ## C4 — status codes of token failures -/

/-- C4 counterexample: a request with no Authorization header is rejected
with status 403 (`FORBIDDEN`), not 401. -/
theorem missing_token_status_403 :
    (authorize "s" 1000 dbGate [1] AuthHeader.missing "/a").1
        = GateOutcome.response 403 "Authorization header missing."
      ∧ (403 : Nat) ≠ 401 := by decide

/-- C4 (amended): token-validation failures (malformed, expired, bad
signature, wrong issuer/audience) are rejected with 401, and the utils
bearer-token extractor rejects non-Bearer headers with 401; but a missing
Authorization header, or one that is not a valid string, is rejected with
403. -/
theorem gate_status_taxonomy (secret : String) (now : Nat) (db : Db)
    (roles : List Int) (path : String) :
    ((authorize secret now db roles AuthHeader.missing path).1
        = GateOutcome.response 403 "Authorization header missing.")
    ∧ ((authorize secret now db roles AuthHeader.notAscii path).1
        = GateOutcome.response 403 "Invalid header format")
    ∧ (∀ words tok, words[1]? = some tok →
        (∃ e, validateJwt secret "your_issuer" "your_audience" 60 now tok
            = Except.error e) →
        (authorize secret now db roles (AuthHeader.val words) path).1
          = GateOutcome.response 401 "Unable to decode token.")
    ∧ (∀ parts err, extract_bearer_token parts = Except.error err →
        err.status_code = 401) := by
  refine ⟨rfl, rfl, ?_, ?_⟩
  · rintro words tok hget ⟨e, he⟩
    have hdec : decode_jwt_mw secret now tok = Except.error 401 := by
      simp [decode_jwt_mw, he]
    simp [authorize, hget, hdec]
  · intro parts err h
    rcases parts with _ | ⟨s, _ | ⟨t, _ | ⟨u, rest⟩⟩⟩ <;>
      simp only [extract_bearer_token] at h
    · cases h; rfl
    · cases h; rfl
    · split_ifs at h
      cases h; rfl
    · cases h; rfl

/-- C4 witness: the amended taxonomy applied to a concrete malformed
token: rejection with 401. -/
theorem gate_status_taxonomy_witness :
    (authorize "s" 1000 dbGate [1]
        (AuthHeader.val [Jwt.garbage "Bearer", Jwt.garbage "junk"]) "/a").1
      = GateOutcome.response 401 "Unable to decode token." :=
  (gate_status_taxonomy "s" 1000 dbGate [1] "/a").2.2.1
    [Jwt.garbage "Bearer", Jwt.garbage "junk"] (Jwt.garbage "junk") rfl
    ⟨JwtErr.invalidToken, rfl⟩

/-! ## C7 — identity-enumeration resistance -/

/-- A valid token (right secret, issuer, audience, unexpired) whose
subject has no row in the user store of `dbGate`. -/
def tokGhost : Jwt := encode_jwt "s" "your_issuer" "your_audience" 1000 "ghost@example.com"

/-- C7 counterexample: an invalid token and a valid token for an unknown
subject both yield status 401, but the response bodies differ
(`"Unable to decode token."` vs `"Unauthorized user."`), so the two
failures are distinguishable. -/
theorem unknown_identity_distinguishable :
    (authorize "s" 1000 dbGate [1]
          (AuthHeader.val [Jwt.garbage "Bearer", Jwt.garbage "junk"]) "/a").1
        = GateOutcome.response 401 "Unable to decode token."
      ∧ (authorize "s" 1000 dbGate [1]
            (AuthHeader.val [Jwt.garbage "Bearer", tokGhost]) "/a").1
          = GateOutcome.response 401 "Unauthorized user."
      ∧ ("Unable to decode token." : String) ≠ "Unauthorized user." := by decide

/-- C7 (amended): both failures carry status 401, but the bodies are the
distinct fixed messages `"Unable to decode token."` (token validation)
and `"Unauthorized user."` (identity lookup). -/
theorem rejection_bodies (secret : String) (now : Nat) (db : Db) (roles : List Int)
    (path : String) (words : List Jwt) (tok : Jwt)
    (hget : words[1]? = some tok) :
    ((∃ e, validateJwt secret "your_issuer" "your_audience" 60 now tok
          = Except.error e) →
      (authorize secret now db roles (AuthHeader.val words) path).1
        = GateOutcome.response 401 "Unable to decode token.")
    ∧ (∀ c, validateJwt secret "your_issuer" "your_audience" 60 now tok = Except.ok c →
        get_user_by_email db c.sub = none →
        (authorize secret now db roles (AuthHeader.val words) path).1
          = GateOutcome.response 401 "Unauthorized user.")
    ∧ ("Unable to decode token." : String) ≠ "Unauthorized user." := by
  refine ⟨?_, ?_, by decide⟩
  · rintro ⟨e, he⟩
    have hdec : decode_jwt_mw secret now tok = Except.error 401 := by
      simp [decode_jwt_mw, he]
    simp [authorize, hget, hdec]
  · intro c hc huser
    have hdec : decode_jwt_mw secret now tok = Except.ok c := by
      simp [decode_jwt_mw, hc]
    simp [authorize, hget, hdec, huser]

/-- C7 witness: the amended statement applied to the concrete unknown
subject `"ghost@example.com"`. -/
theorem rejection_bodies_witness :
    (authorize "s" 1000 dbGate [1]
        (AuthHeader.val [Jwt.garbage "Bearer", tokGhost]) "/a").1
      = GateOutcome.response 401 "Unauthorized user." :=
  (rejection_bodies "s" 1000 dbGate [1] "/a" [Jwt.garbage "Bearer", tokGhost]
      tokGhost rfl).2.1
    { sub := "ghost@example.com", iat := 1000, exp := 1000 + tokenLifetime,
      iss := "your_issuer", aud := "your_audience" } rfl rfl

/-! ## C8 — usage recording on the request path -/

/-- C8 counterexample: the gate performs the durable usage insert
synchronously on the request path — after one forwarded request the
durable usage table already holds that request's row, with no flush step
involved. -/
theorem usage_insert_on_request_path :
    ((authorize "s" 1000 dbGate [1] hdrGate "/a").2).usage
        = [{ user_id := 1, endpoint := "/a", creation_date := 1000 }]
      ∧ (authorize "s" 1000 dbGate [1] hdrGate "/a").1 = GateOutcome.forwarded uGate
      ∧ ((authorize "s" 1000 dbGate [1] hdrGate "/a").2).usage.length ≠ 0 := by decide

/-- C8 (amended): there is no in-memory usage queue: every forwarded
request synchronously adds exactly one durable usage row, so after a
sequence of requests the durable table has grown by exactly the number of
forwarded requests. -/
theorem usage_rows_per_forwarded_request (secret : String) (now : Nat)
    (roles : List Int) (reqs : List (AuthHeader × String)) (db : Db) :
    ((runGate secret now roles db reqs).2).usage.length
      = db.usage.length
        + ((runGate secret now roles db reqs).1.filter (fun o => isForwarded o)).length := by
  induction reqs generalizing db with
  | nil => simp [runGate]
  | cons r rs ih =>
    have hstep := authorize_usage_length secret now db roles r.1 r.2
    cases hf : isForwarded (authorize secret now db roles r.1 r.2).1 <;>
      simp [runGate, List.filter, hf, ih, hstep] <;> omega

/-! ## C3 — dual credential -/

/-- Helper: a just-inserted cache entry for the password is a live cache
hit within the TTL. -/
theorem cacheGet_insert_self (c : List CacheEntry) (p : String) (t1 t2 : Nat)
    (h : t2 < t1 + cacheTTL) :
    cacheGet ({ key := p, value := true, insertedAt := t1 } :: c) p t2 = some true := by
  simp [cacheGet, List.find?, h]

/-- Helper: once the accumulator has turned true the cache holds a live
`true` entry for the password, so the remaining fan-out steps are cache
hits and change nothing. -/
theorem apiKeyFanOut_absorb (A : Argon) (now : Nat) (p : String) :
    ∀ (keys : List ApiKeyRow) (c : List CacheEntry),
      cacheGet c p now = some true →
      apiKeyFanOut A now p keys (true, c) = (true, c) := by
  intro keys
  induction keys with
  | nil => intro c _; rfl
  | cons k ks ih =>
    intro c h
    have hv : verify_hash A now c p k.key_hash = (Except.ok true, c) := by
      simp [verify_hash, h]
    simp only [apiKeyFanOut, hv]
    simpa using ih c h

/-- Helper: starting from a cache with no live entry for the password,
the fan-out result is the disjunction of the per-key Argon checks; if
some key matched, the final cache holds a live `true` entry for the
password, and if none did, the cache is unchanged. -/
theorem apiKeyFanOut_spec (A : Argon) (now : Nat) (p : String) :
    ∀ (keys : List ApiKeyRow) (c : List CacheEntry),
      cacheGet c p now = none →
      ((apiKeyFanOut A now p keys (false, c)).1
          = keys.any (fun k => A.parses k.key_hash && A.verifyOk p k.key_hash))
      ∧ ((apiKeyFanOut A now p keys (false, c)).1 = true →
          cacheGet (apiKeyFanOut A now p keys (false, c)).2 p now = some true)
      ∧ ((apiKeyFanOut A now p keys (false, c)).1 = false →
          (apiKeyFanOut A now p keys (false, c)).2 = c) := by
  intro keys
  induction keys with
  | nil =>
    intro c _
    refine ⟨rfl, ?_, fun _ => rfl⟩
    intro h1
    simp [apiKeyFanOut] at h1
  | cons k ks ih =>
    intro c h
    by_cases hp : A.parses k.key_hash = true
    · by_cases hv : A.verifyOk p k.key_hash = true
      · have hver : verify_hash A now c p k.key_hash
            = (Except.ok true, { key := p, value := true, insertedAt := now } :: c) := by
          simp [verify_hash, h, hp, hv]
        have hins : cacheGet ({ key := p, value := true, insertedAt := now } :: c) p now
            = some true := cacheGet_insert_self c p now now (by simp [cacheTTL])
        have hstep : apiKeyFanOut A now p (k :: ks) (false, c)
            = (true, { key := p, value := true, insertedAt := now } :: c) := by
          simp only [apiKeyFanOut, hver]
          simpa using apiKeyFanOut_absorb A now p ks _ hins
        refine ⟨?_, ?_, ?_⟩
        · rw [hstep]; simp [List.any_cons, hp, hv]
        · intro _; rw [hstep]; exact hins
        · intro hfalse; rw [hstep] at hfalse; simp at hfalse
      · have hver : verify_hash A now c p k.key_hash
            = (Except.error HashErr.passwordMismatch, c) := by
          simp [verify_hash, h, hp, hv]
        have hstep : apiKeyFanOut A now p (k :: ks) (false, c)
            = apiKeyFanOut A now p ks (false, c) := by
          simp [apiKeyFanOut, hver]
        obtain ⟨h1, h2, h3⟩ := ih c h
        rw [hstep]
        refine ⟨?_, h2, h3⟩
        rw [h1]
        simp [List.any_cons, hv]
    · have hver : verify_hash A now c p k.key_hash
          = (Except.error HashErr.malformedHash, c) := by
        simp [verify_hash, h, Bool.of_not_eq_true hp]
      have hstep : apiKeyFanOut A now p (k :: ks) (false, c)
          = apiKeyFanOut A now p ks (false, c) := by
        simp [apiKeyFanOut, hver]
      obtain ⟨h1, h2, h3⟩ := ih c h
      rw [hstep]
      refine ⟨?_, h2, h3⟩
      rw [h1]
      simp [List.any_cons, Bool.of_not_eq_true hp]

/-- Helper: the TOTP stage never rejects with the credential-failure
body, whatever the TOTP state. -/
theorem totp_stage_ne_credential_failure (totpOk : String → String → Bool)
    (secret issuer audience : String) (now : Nat) (user : UserRow)
    (data : LoginData) (c : List CacheEntry) :
    (totp_stage totpOk secret issuer audience now user data c).1
      ≠ LoginResult.failure 401 "Incorrect credentials." := by
  unfold totp_stage
  cases hts : user.totp_secret with
  | none => simp
  | some ts =>
    cases htc : data.totp with
    | none => simp
    | some code =>
      by_cases hok : totpOk ts code = true
      · simp [hok]
      · simp [hok]

/-- C3: with no live cache entry for the supplied secret, the login
credential check accepts exactly when the secret matches the stored
password hash or matches at least one active (non-disabled, non-expired)
API-key hash; keys excluded by the active filter never count. -/
theorem login_dual_credential (A : Argon) (totpOk : String → String → Bool)
    (secret issuer audience : String) (now : Nat) (currentDate : Int)
    (cache : List CacheEntry) (db : Db) (data : LoginData) (user : UserRow)
    (huser : get_user_by_email db data.email = some user)
    (hfresh : cacheGet cache data.password now = none) :
    ((login A totpOk secret issuer audience now currentDate cache db data).1
        ≠ LoginResult.failure 401 "Incorrect credentials.")
      ↔ (hashMatches A data.password user.password_hash
         ∨ ∃ k ∈ fetch_active_apikeys_by_user_id_from_db db currentDate user.id,
             hashMatches A data.password k.key_hash) := by
  obtain ⟨hany, hct, hcf⟩ := apiKeyFanOut_spec A now data.password
      (fetch_active_apikeys_by_user_id_from_db db currentDate user.id) cache hfresh
  simp only [login, huser]
  cases hb : (apiKeyFanOut A now data.password
      (fetch_active_apikeys_by_user_id_from_db db currentDate user.id) (false, cache)).1
  case true =>
    have hver : verify_hash A now
        (apiKeyFanOut A now data.password
          (fetch_active_apikeys_by_user_id_from_db db currentDate user.id)
          (false, cache)).2 data.password user.password_hash
        = (Except.ok true,
           (apiKeyFanOut A now data.password
             (fetch_active_apikeys_by_user_id_from_db db currentDate user.id)
             (false, cache)).2) := by
      simp [verify_hash, hct hb]
    simp only [hver, hb]
    refine iff_of_true ?_ ?_
    · simpa using totp_stage_ne_credential_failure totpOk secret issuer audience now user data _
    · right
      have : (fetch_active_apikeys_by_user_id_from_db db currentDate user.id).any
          (fun k => A.parses k.key_hash && A.verifyOk data.password k.key_hash) = true := by
        rw [← hany, hb]
      obtain ⟨k, hk, hfk⟩ := List.any_eq_true.mp this
      exact ⟨k, hk, (Bool.and_eq_true _ _).mp hfk⟩
  case false =>
    have h2 := hcf hb
    have hks : (fetch_active_apikeys_by_user_id_from_db db currentDate user.id).any
        (fun k => A.parses k.key_hash && A.verifyOk data.password k.key_hash) = false := by
      rw [← hany, hb]
    have hnokey : ¬ ∃ k ∈ fetch_active_apikeys_by_user_id_from_db db currentDate user.id,
        hashMatches A data.password k.key_hash := by
      rintro ⟨k, hk, hm1, hm2⟩
      have hkk : (fun j : ApiKeyRow =>
          A.parses j.key_hash && A.verifyOk data.password j.key_hash) k = true := by
        simp [hm1, hm2]
      have hall : (fetch_active_apikeys_by_user_id_from_db db currentDate user.id).any
          (fun j => A.parses j.key_hash && A.verifyOk data.password j.key_hash) = true :=
        List.any_eq_true.mpr ⟨k, hk, hkk⟩
      rw [hks] at hall
      cases hall
    rw [h2]
    by_cases hpp : A.parses user.password_hash = true
    · by_cases hvv : A.verifyOk data.password user.password_hash = true
      · have hver : verify_hash A now cache data.password user.password_hash
            = (Except.ok true,
               { key := data.password, value := true, insertedAt := now } :: cache) := by
          simp [verify_hash, hfresh, hpp, hvv]
        simp only [hver, hb]
        refine iff_of_true ?_ (Or.inl ⟨hpp, hvv⟩)
        simpa using totp_stage_ne_credential_failure totpOk secret issuer audience now user data _
      · have hver : verify_hash A now cache data.password user.password_hash
            = (Except.error HashErr.passwordMismatch, cache) := by
          simp [verify_hash, hfresh, hpp, hvv]
        simp only [hver]
        refine iff_of_false (by simp) ?_
        rintro (⟨_, hm⟩ | hkey)
        · exact hvv hm
        · exact hnokey hkey
    · have hver : verify_hash A now cache data.password user.password_hash
          = (Except.error HashErr.malformedHash, cache) := by
        simp [verify_hash, hfresh, Bool.of_not_eq_true hpp]
      simp only [hver]
      refine iff_of_false (by simp) ?_
      rintro (⟨hm, _⟩ | hkey)
      · exact hpp hm
      · exact hnokey hkey

/-- A login user whose password `"pw"` hashes to `"H:pw"`, holding one
active API key whose secret `"key"` hashes to `"H:key"`. -/
def uLogin : UserRow :=
  { id := 1, email := "u@x", password_hash := "H:pw", totp_secret := none,
    role_level := 1, tier_level := 1 }

/-- The active API key of `uLogin`. -/
def keyLogin : ApiKeyRow :=
  { user_id := 1, key_hash := "H:key", disabled := false, expiration_date := none }

/-- A store with `uLogin` and their one active key. -/
def dbLogin : Db := { users := [uLogin], tiers := [], usage := [], apikeys := [keyLogin] }

/-- A login request supplying the API-key secret, which does not match
the primary password hash. -/
def dataLogin : LoginData := { email := "u@x", password := "key", totp := none }

/-- C3 witness: the API-key secret alone is accepted even though it does
not match the primary password hash. -/
theorem login_dual_credential_witness :
    (login argonDemo (fun _ _ => true) "s" "i" "a" 0 0 [] dbLogin dataLogin).1
      ≠ LoginResult.failure 401 "Incorrect credentials." :=
  (login_dual_credential argonDemo (fun _ _ => true) "s" "i" "a" 0 0 [] dbLogin dataLogin
      uLogin (by decide) (by decide)).mpr
    (Or.inr ⟨keyLogin, by decide, by decide, by decide⟩)

end Axium
